import Mathlib

/-!
Verification of the marker-overlay (MarkerLayer) behavior of the
napari-gui repository.  The repository ships only a demonstration
notebook (`demo/demo_markers.ipynb`) that drives the library's public
API: `add_markers` on a viewer, and the `data` / `coords` / `size` /
`symbol` accessors of the returned markers layer.  The library code
implementing those operations is not part of the provided sources, so
every definition below is modelled from the specification document,
faithful to its words; the notebook fixes the concrete scenarios.
-/

namespace NapariGui

/-- Modelled from the spec: the single `ValidationError` kind of §7,
covering (a) inconsistent coordinate tuple dimensionality, (b)
size-sequence length mismatch against D, (c) unrecognized symbol code.
The implementing library code is missing from the sources. -/
inductive ValidationError where
  | inconsistentDims
  | sizeLengthMismatch
  | unknownSymbol
  deriving Repr, DecidableEq

/-- Modelled from the spec: the MarkerLayer data entity of §3 — an
ordered sequence of fixed-length numeric coordinate tuples of shared
dimensionality D, an effective per-dimension size vector (the one
canonical internal representation that scalar and sequence inputs are
normalized to), and a uniform glyph symbol.  The implementing class
(`napari_gui.layers._markers.Markers`) is missing from the sources. -/
structure MarkerLayer where
  dim : Nat
  coords : List (List Int)
  size : List Int
  symbol : String
  deriving Repr, DecidableEq

/-- Modelled from the spec: the enumerated recognized glyph-symbol set of
§4.1 (`setSymbol`): disc, cross/plus, square; the example uses "+".  The
library's symbol table is missing from the sources. -/
def recognizedSymbols : List String := ["disc", "+", "square"]

/-- Modelled from the spec: the implementation-defined default uniform
scalar size applied by `create` (§4.1), broadcast across all D
dimensions.  The library's default is missing from the sources. -/
def defaultSizeScalar : Int := 10

/-- Modelled from the spec: the implementation-defined default glyph
applied by `create` (§4.1).  The library's default is missing from the
sources. -/
def defaultSymbol : String := "disc"

/-- The number of markers the layer reports: the spec (§3) states the
marker count equals the number of coordinate tuples at any observation
point. -/
def MarkerLayer.markerCount (L : MarkerLayer) : Nat := L.coords.length

/-- The dimensionality a coordinate sequence establishes: the length of
its first tuple (0 for an empty sequence). -/
def headDim (s : List (List Int)) : Nat :=
  ((s.head?).map List.length).getD 0

/-- Modelled from the spec: `create(initialCoordinates)` of §4.1 — a new
layer from an ordered sequence of numeric tuples all of equal length D,
with default styling; fails with `ValidationError` if tuples have
inconsistent length.  The library's constructor is missing from the
sources.  D is taken from the first tuple (0 for an empty sequence). -/
def create (s : List (List Int)) : Except ValidationError MarkerLayer :=
  if s.all (fun t => t.length == headDim s) then
    .ok { dim := headDim s, coords := s,
          size := List.replicate (headDim s) defaultSizeScalar,
          symbol := defaultSymbol }
  else
    .error .inconsistentDims

/-- Modelled from the spec: `setCoordinates(newCoordinates)` of §4.1 —
replaces the entire coordinate sequence, renumbering marker indices
0..len-1 in the new sequence's order; fails with `ValidationError` on
dimension mismatch against the layer's established D (redimensioning is
an explicit validation-error case, §9).  The library's setter body is
missing from the sources. -/
def setCoordinates (L : MarkerLayer) (s : List (List Int)) :
    Except ValidationError MarkerLayer :=
  if s.all (fun t => t.length == L.dim) then
    .ok { L with coords := s }
  else
    .error .inconsistentDims

/-- Modelled from the spec: the `data` write accessor (§6), one of the
two aliased mutation entry points for the coordinates; the notebook
(`demo_markers.ipynb`, cell assigning `layers[1].data`) exercises it.
The library's property setter is missing from the sources. -/
def setDataAccessor (L : MarkerLayer) (s : List (List Int)) :
    Except ValidationError MarkerLayer :=
  setCoordinates L s

/-- Modelled from the spec: the `coords` write accessor (§6), the other
aliased mutation entry point for the coordinates; the notebook
(`demo_markers.ipynb`, cell assigning `layers[1].coords`) exercises it.
The library's property setter is missing from the sources. -/
def setCoordsAccessor (L : MarkerLayer) (s : List (List Int)) :
    Except ValidationError MarkerLayer :=
  setCoordinates L s

/-- Modelled from the spec: the input shapes `setSize` accepts (§4.1) —
a single number, or a sequence of exactly D numbers.  The library's
duck-typed accessor is missing from the sources. -/
inductive SizeInput where
  | scalar (v : Int)
  | vector (v : List Int)
  deriving Repr, DecidableEq

/-- Modelled from the spec: `setSize(value)` of §4.1 — a scalar is
broadcast across all D dimensions; a sequence of exactly D numbers
becomes the per-dimension size vector; a sequence whose length differs
from D fails with `ValidationError`.  The library's setter body is
missing from the sources. -/
def setSize (L : MarkerLayer) (v : SizeInput) :
    Except ValidationError MarkerLayer :=
  match v with
  | .scalar x => .ok { L with size := List.replicate L.dim x }
  | .vector xs =>
    if xs.length == L.dim then
      .ok { L with size := xs }
    else
      .error .sizeLengthMismatch

/-- Modelled from the spec: `setSymbol(value)` of §4.1 — updates the
uniform glyph when the code is in the recognized symbol set, otherwise
fails with `ValidationError`.  The library's setter body is missing
from the sources. -/
def setSymbol (L : MarkerLayer) (g : String) :
    Except ValidationError MarkerLayer :=
  if g ∈ recognizedSymbols then
    .ok { L with symbol := g }
  else
    .error .unknownSymbol

/-- Modelled from the spec: a layer attached to a viewer — the notebook
shows the viewer's layer list holding both an image layer and a markers
layer.  The library's layer classes are missing from the sources. -/
inductive Layer where
  | image
  | markers (L : MarkerLayer)
  deriving Repr, DecidableEq

/-- Modelled from the spec: the parent viewer collaborator (§6), holding
the ordered sequence of attached layers.  The library's viewer class is
missing from the sources. -/
structure Viewer where
  layers : List Layer
  deriving Repr, DecidableEq

/-- Modelled from the spec: `addLayer(layer)` of §6 — registers a new
layer with append semantics, the new layer placed after existing
layers.  The library's method is missing from the sources. -/
def Viewer.addLayer (V : Viewer) (l : Layer) : Viewer :=
  { V with layers := V.layers ++ [l] }

/-- Modelled from the spec: `addMarkers(coordinates)` of §6 — the
factory entry point on the viewer, creating the layer via `create` and
registering it with the viewer's layer list; it returns the new layer.
The library's `add_markers` method is missing from the sources. -/
def Viewer.addMarkers (V : Viewer) (s : List (List Int)) :
    Except ValidationError (MarkerLayer × Viewer) :=
  match create s with
  | .ok L => .ok (L, V.addLayer (Layer.markers L))
  | .error e => .error e

/-- The five 5-tuples of the notebook's `marker_list`. -/
def exampleMarkerList : List (List Int) :=
  [[50, 30, 0, 0, 0],
   [20, 20, 0, 0, 0],
   [40, 90, 0, 0, 0],
   [50, 40, 1, 1, 1],
   [70, 30, 4, 2, 1]]

/-- The five 5-tuples of the notebook's `marker_list2`. -/
def exampleMarkerList2 : List (List Int) :=
  [[400, 30, 0, 0, 0],
   [75, 200, 0, 0, 0],
   [33, 90, 0, 0, 0],
   [99, 40, 1, 1, 1],
   [50, 30, 4, 2, 1]]

/-- The markers layer the notebook's `add_markers(marker_list)` call
produces, taking the implementation-defined defaults of this model. -/
def exampleLayer : MarkerLayer :=
  { dim := 5, coords := exampleMarkerList,
    size := List.replicate 5 defaultSizeScalar, symbol := defaultSymbol }

lemma all_len_eq {S : List (List Int)} {D : Nat}
    (h : ∀ t ∈ S, t.length = D) :
    S.all (fun t => t.length == D) = true := by
  rw [List.all_eq_true]
  intro t ht
  simpa using h t ht

lemma create_cond {S : List (List Int)} {D : Nat}
    (h : ∀ t ∈ S, t.length = D) :
    S.all (fun t => t.length == headDim S) = true := by
  cases S with
  | nil => rfl
  | cons a as =>
    refine all_len_eq ?_
    intro t ht
    have h1 := h t ht
    have h2 := h a (List.mem_cons_self a as)
    simp [headDim, h1, h2]

lemma create_ok {S : List (List Int)} {D : Nat}
    (h : ∀ t ∈ S, t.length = D) :
    create S = Except.ok
      { dim := headDim S, coords := S,
        size := List.replicate (headDim S) defaultSizeScalar,
        symbol := defaultSymbol } := by
  unfold create
  rw [if_pos (create_cond h)]

lemma setCoordinates_ok {L : MarkerLayer} {S : List (List Int)}
    (h : ∀ t ∈ S, t.length = L.dim) :
    setCoordinates L S = Except.ok { L with coords := S } := by
  unfold setCoordinates
  rw [if_pos (all_len_eq h)]

lemma plus_recognized : "+" ∈ recognizedSymbols :=
  List.mem_cons_of_mem _ (List.mem_cons_self _ _)

/-- C1: for every sequence S of numeric tuples that all have the same
length D, the viewer's addMarkers factory succeeds and returns a
MarkerLayer whose coordinate count equals the length of S and in which
every stored tuple has length D. -/
theorem addMarkers_count_and_dim (V : Viewer) (S : List (List Int))
    (D : Nat) (h : ∀ t ∈ S, t.length = D) :
    ∃ L V2, V.addMarkers S = Except.ok (L, V2) ∧
      L.markerCount = S.length ∧ ∀ t ∈ L.coords, t.length = D := by
  refine ⟨{ dim := headDim S, coords := S,
            size := List.replicate (headDim S) defaultSizeScalar,
            symbol := defaultSymbol },
          V.addLayer (Layer.markers
            { dim := headDim S, coords := S,
              size := List.replicate (headDim S) defaultSizeScalar,
              symbol := defaultSymbol }),
          ?_, rfl, h⟩
  unfold Viewer.addMarkers
  rw [create_ok h]

/-- C1 witness: the five 5-tuples of the notebook yield a layer with 5
markers and D = 5. -/
theorem addMarkers_count_and_dim_witness :
    (∀ t ∈ exampleMarkerList, t.length = 5) ∧
    ∃ L V2, (Viewer.mk []).addMarkers exampleMarkerList = Except.ok (L, V2) ∧
      L.markerCount = 5 ∧ ∀ t ∈ L.coords, t.length = 5 :=
  ⟨by decide, addMarkers_count_and_dim ⟨[]⟩ exampleMarkerList 5 (by decide)⟩

/-- C2: assigning a replacement sequence through the `data` accessor and
through the `coords` accessor is one and the same setCoordinates
operation, so the resulting layer states are identical for every layer
and every replacement sequence. -/
theorem data_coords_alias (L : MarkerLayer) (S2 : List (List Int)) :
    setDataAccessor L S2 = setCoordsAccessor L S2 := rfl

/-- C3: setSize with a scalar v makes the effective per-dimension size
vector v repeated D times, and setSize with a sequence of length
exactly D makes the effective size vector exactly that sequence. -/
theorem setSize_scalar_and_vector (L : MarkerLayer) (v : Int)
    (xs : List Int) (h : xs.length = L.dim) :
    (∃ L1, setSize L (SizeInput.scalar v) = Except.ok L1 ∧
       L1.size = List.replicate L.dim v) ∧
    (∃ L2, setSize L (SizeInput.vector xs) = Except.ok L2 ∧
       L2.size = xs) := by
  refine ⟨⟨{ L with size := List.replicate L.dim v }, rfl, rfl⟩,
          ⟨{ L with size := xs }, ?_, rfl⟩⟩
  simp [setSize, h]

/-- C3 witness: on the notebook's 5-dimensional layer, a scalar size and
the size vector [20, 20, 20, 5, 5] both take effect as stated. -/
theorem setSize_scalar_and_vector_witness :
    ([20, 20, 20, 5, 5] : List Int).length = exampleLayer.dim ∧
    ((∃ L1, setSize exampleLayer (SizeInput.scalar 7) = Except.ok L1 ∧
        L1.size = List.replicate exampleLayer.dim 7) ∧
     (∃ L2, setSize exampleLayer (SizeInput.vector [20, 20, 20, 5, 5]) =
        Except.ok L2 ∧ L2.size = [20, 20, 20, 5, 5])) :=
  ⟨by decide,
   setSize_scalar_and_vector exampleLayer 7 [20, 20, 20, 5, 5] (by decide)⟩

/-- C4: setSize with a sequence whose length differs from D fails with
ValidationError (sizeLengthMismatch); no successor state is produced,
so the prior size and all other layer state are left unchanged. -/
theorem setSize_mismatch_error (L : MarkerLayer) (xs : List Int)
    (h : xs.length ≠ L.dim) :
    setSize L (SizeInput.vector xs) =
      Except.error ValidationError.sizeLengthMismatch ∧
    ∀ L2, setSize L (SizeInput.vector xs) ≠ Except.ok L2 := by
  have he : setSize L (SizeInput.vector xs) =
      Except.error ValidationError.sizeLengthMismatch := by
    simp [setSize, h]
  exact ⟨he, fun L2 hk => by rw [he] at hk; exact Except.noConfusion hk⟩

/-- C4 witness: a length-3 size vector on the 5-dimensional example
layer is rejected with sizeLengthMismatch and yields no new state. -/
theorem setSize_mismatch_error_witness :
    ([1, 2, 3] : List Int).length ≠ exampleLayer.dim ∧
    (setSize exampleLayer (SizeInput.vector [1, 2, 3]) =
       Except.error ValidationError.sizeLengthMismatch ∧
     ∀ L2, setSize exampleLayer (SizeInput.vector [1, 2, 3]) ≠
       Except.ok L2) :=
  ⟨by decide, setSize_mismatch_error exampleLayer [1, 2, 3] (by decide)⟩

/-- C5: setSymbol with a glyph code outside the recognized symbol set
fails with ValidationError (unknownSymbol) leaving no successor state,
while the recognized code "+" succeeds and the layer thereafter
reports symbol "+". -/
theorem setSymbol_validation (L : MarkerLayer) (g : String)
    (h : g ∉ recognizedSymbols) :
    (setSymbol L g = Except.error ValidationError.unknownSymbol ∧
     ∀ L2, setSymbol L g ≠ Except.ok L2) ∧
    ∃ L3, setSymbol L "+" = Except.ok L3 ∧ L3.symbol = "+" := by
  have he : setSymbol L g = Except.error ValidationError.unknownSymbol := by
    unfold setSymbol
    rw [if_neg h]
  refine ⟨⟨he, fun L2 hk => by rw [he] at hk; exact Except.noConfusion hk⟩,
          ⟨{ L with symbol := "+" }, ?_, rfl⟩⟩
  unfold setSymbol
  rw [if_pos plus_recognized]

/-- C5 witness: on the example layer, the unrecognized glyph "z" is
rejected and "+" is accepted and thereafter reported. -/
theorem setSymbol_validation_witness :
    ("z" ∉ recognizedSymbols) ∧
    ((setSymbol exampleLayer "z" =
        Except.error ValidationError.unknownSymbol ∧
      ∀ L2, setSymbol exampleLayer "z" ≠ Except.ok L2) ∧
     ∃ L3, setSymbol exampleLayer "+" = Except.ok L3 ∧ L3.symbol = "+") :=
  ⟨by decide, setSymbol_validation exampleLayer "z" (by decide)⟩

/-- C6: setCoordinates with a valid replacement sequence S2 replaces
the entire prior marker set — the stored coordinates equal exactly
S2 — the coordinate count observed immediately afterwards equals the
length of S2, and the stored order matches the input order (position i
of the new store holds tuple i of S2, indices renumbered 0..len-1). -/
theorem setCoordinates_replaces (L : MarkerLayer) (S2 : List (List Int))
    (h : ∀ t ∈ S2, t.length = L.dim) :
    ∃ L2, setCoordinates L S2 = Except.ok L2 ∧ L2.coords = S2 ∧
      L2.markerCount = S2.length ∧
      ∀ i : Nat, L2.coords[i]? = S2[i]? :=
  ⟨{ L with coords := S2 }, setCoordinates_ok h, rfl, rfl, fun _ => rfl⟩

/-- C6 witness: replacing the example layer's markers with the
notebook's second 5-marker list gives exactly that list, count 5, in
input order. -/
theorem setCoordinates_replaces_witness :
    (∀ t ∈ exampleMarkerList2, t.length = exampleLayer.dim) ∧
    ∃ L2, setCoordinates exampleLayer exampleMarkerList2 = Except.ok L2 ∧
      L2.coords = exampleMarkerList2 ∧
      L2.markerCount = exampleMarkerList2.length ∧
      ∀ i : Nat, L2.coords[i]? = exampleMarkerList2[i]? :=
  ⟨by decide, setCoordinates_replaces exampleLayer exampleMarkerList2 (by decide)⟩

/-- C7: the marker count a layer reports is the number of its stored
coordinate tuples, and whenever setSize and setSymbol succeed they
change neither the coordinates nor the marker count. -/
theorem count_invariant (L : MarkerLayer) (v : SizeInput) (g : String)
    (L1 L2 : MarkerLayer)
    (h1 : setSize L v = Except.ok L1)
    (h2 : setSymbol L g = Except.ok L2) :
    L.markerCount = L.coords.length ∧
    L1.coords = L.coords ∧ L2.coords = L.coords ∧
    L1.markerCount = L.markerCount ∧ L2.markerCount = L.markerCount := by
  have k1 : L1.coords = L.coords := by
    cases v with
    | scalar x =>
      simp only [setSize] at h1
      injection h1 with h3
      rw [← h3]
    | vector xs =>
      simp only [setSize] at h1
      by_cases hx : (xs.length == L.dim) = true
      · rw [if_pos hx] at h1
        injection h1 with h3
        rw [← h3]
      · rw [if_neg hx] at h1
        exact Except.noConfusion h1
  have k2 : L2.coords = L.coords := by
    unfold setSymbol at h2
    by_cases hg : g ∈ recognizedSymbols
    · rw [if_pos hg] at h2
      injection h2 with h3
      rw [← h3]
    · rw [if_neg hg] at h2
      exact Except.noConfusion h2
  refine ⟨rfl, k1, k2, ?_, ?_⟩
  · simp [MarkerLayer.markerCount, k1]
  · simp [MarkerLayer.markerCount, k2]

/-- C7 witness: on the example layer, setting size 3 and symbol "+"
leaves the 5 coordinates and the count of 5 untouched. -/
theorem count_invariant_witness :
    setSize exampleLayer (SizeInput.scalar 3) =
      Except.ok { exampleLayer with
                  size := List.replicate exampleLayer.dim 3 } ∧
    setSymbol exampleLayer "+" =
      Except.ok { exampleLayer with symbol := "+" } ∧
    (exampleLayer.markerCount = exampleLayer.coords.length ∧
     ({ exampleLayer with
        size := List.replicate exampleLayer.dim 3 } : MarkerLayer).coords =
       exampleLayer.coords ∧
     ({ exampleLayer with symbol := "+" } : MarkerLayer).coords =
       exampleLayer.coords ∧
     ({ exampleLayer with
        size := List.replicate exampleLayer.dim 3 } : MarkerLayer).markerCount =
       exampleLayer.markerCount ∧
     ({ exampleLayer with symbol := "+" } : MarkerLayer).markerCount =
       exampleLayer.markerCount) :=
  ⟨rfl, by unfold setSymbol; rw [if_pos plus_recognized],
   count_invariant exampleLayer (SizeInput.scalar 3) "+"
     { exampleLayer with size := List.replicate exampleLayer.dim 3 }
     { exampleLayer with symbol := "+" }
     rfl (by unfold setSymbol; rw [if_pos plus_recognized])⟩

/-- C8: addMarkers registers the new layer with append semantics — the
viewer's layer sequence afterwards is the prior sequence followed by
the new markers layer. -/
theorem addMarkers_append (V : Viewer) (S : List (List Int)) (D : Nat)
    (h : ∀ t ∈ S, t.length = D) :
    ∃ L V2, V.addMarkers S = Except.ok (L, V2) ∧
      V2.layers = V.layers ++ [Layer.markers L] := by
  refine ⟨{ dim := headDim S, coords := S,
            size := List.replicate (headDim S) defaultSizeScalar,
            symbol := defaultSymbol },
          V.addLayer (Layer.markers
            { dim := headDim S, coords := S,
              size := List.replicate (headDim S) defaultSizeScalar,
              symbol := defaultSymbol }),
          ?_, rfl⟩
  unfold Viewer.addMarkers
  rw [create_ok h]

/-- C8 witness: on a viewer already holding an image layer, adding the
notebook's markers puts the new layer after it, reachable at index 1. -/
theorem addMarkers_append_witness :
    (∀ t ∈ exampleMarkerList, t.length = 5) ∧
    ∃ L V2,
      (Viewer.mk [Layer.image]).addMarkers exampleMarkerList =
        Except.ok (L, V2) ∧
      V2.layers = [Layer.image] ++ [Layer.markers L] :=
  ⟨by decide,
   addMarkers_append ⟨[Layer.image]⟩ exampleMarkerList 5 (by decide)⟩

/-- C9: setCoordinates leaves the uniform styling unchanged — on
success, the resulting layer's size vector, symbol and dimensionality
equal their values before the call. -/
theorem setCoordinates_preserves_styling (L : MarkerLayer)
    (S2 : List (List Int)) (L2 : MarkerLayer)
    (h : setCoordinates L S2 = Except.ok L2) :
    L2.size = L.size ∧ L2.symbol = L.symbol ∧ L2.dim = L.dim := by
  unfold setCoordinates at h
  by_cases hc : (S2.all (fun t => t.length == L.dim)) = true
  · rw [if_pos hc] at h
    injection h with h3
    rw [← h3]
    exact ⟨rfl, rfl, rfl⟩
  · rw [if_neg hc] at h
    exact Except.noConfusion h

/-- C9 witness: replacing the example layer's coordinates with the
notebook's second marker list keeps size, symbol and dimensionality. -/
theorem setCoordinates_preserves_styling_witness :
    setCoordinates exampleLayer exampleMarkerList2 =
      Except.ok { exampleLayer with coords := exampleMarkerList2 } ∧
    (({ exampleLayer with coords := exampleMarkerList2 } : MarkerLayer).size =
       exampleLayer.size ∧
     ({ exampleLayer with coords := exampleMarkerList2 } : MarkerLayer).symbol =
       exampleLayer.symbol ∧
     ({ exampleLayer with coords := exampleMarkerList2 } : MarkerLayer).dim =
       exampleLayer.dim) :=
  ⟨rfl,
   setCoordinates_preserves_styling exampleLayer exampleMarkerList2
     { exampleLayer with coords := exampleMarkerList2 } rfl⟩

/-- C10: the MarkerLayer addMarkers returns is the very layer appended
to the viewer's layer list — it is the last element of the layers
sequence immediately after the call. -/
theorem addMarkers_returns_last (V : Viewer) (S : List (List Int))
    (D : Nat) (h : ∀ t ∈ S, t.length = D) :
    ∃ L V2, V.addMarkers S = Except.ok (L, V2) ∧
      V2.layers.getLast? = some (Layer.markers L) := by
  refine ⟨{ dim := headDim S, coords := S,
            size := List.replicate (headDim S) defaultSizeScalar,
            symbol := defaultSymbol },
          V.addLayer (Layer.markers
            { dim := headDim S, coords := S,
              size := List.replicate (headDim S) defaultSizeScalar,
              symbol := defaultSymbol }),
          ?_, ?_⟩
  · unfold Viewer.addMarkers
    rw [create_ok h]
  · simp [Viewer.addLayer]

/-- C10 witness: after adding the notebook's markers to a viewer with
one image layer, the returned layer is the last entry of layers. -/
theorem addMarkers_returns_last_witness :
    (∀ t ∈ exampleMarkerList, t.length = 5) ∧
    ∃ L V2,
      (Viewer.mk [Layer.image]).addMarkers exampleMarkerList =
        Except.ok (L, V2) ∧
      V2.layers.getLast? = some (Layer.markers L) :=
  ⟨by decide,
   addMarkers_returns_last ⟨[Layer.image]⟩ exampleMarkerList 5 (by decide)⟩

end NapariGui
